import Mathlib

/-!
Shallow embedding of `src/article_generator.py` (class `ArticleGenerator`).

Python strings are modelled as `List Char`; Python dicts produced by
`json.loads` are modelled as association lists of `List Char` keys and
JSON values (`Obj`).  The two external calls — `get_llm_output` (the
generation collaborator) and `json.loads` (the stdlib JSON parser) — are
parameters of the embedded functions: the collaborator is a function from
the topic and tags to `Except Unit (List Char)` (the prompt text it
receives is a pure function of topic, tags and the model name, which the
claims never inspect), and the parser is a function from the text to
`Option Obj` (`none` = `json.JSONDecodeError`).  Python exceptions of the
embedded code itself (`KeyError`, attribute/type errors from calling
`.replace` on a non-string) are modelled with `Except PyErr`.
-/

namespace ArticleGen

/-- Convert a Lean string literal to the `List Char` representation used
throughout the embedding. -/
def toL (s : String) : List Char := s.data

/-- JSON values, as far as the program inspects them (`json.loads` output). -/
inductive JVal where
  | jstr (s : List Char)
  | jnum (n : Int)
  | jbool (b : Bool)
  | jnull
deriving DecidableEq, Repr

/-- A parsed JSON object / Python dict: association list, first binding wins. -/
abbrev Obj := List (List Char × JVal)

/-- Dict lookup (`d[k]` / `d.get(k)` returning `None` when absent). -/
def lookupField (k : List Char) : Obj → Option JVal
  | [] => none
  | (k2, v) :: rest => if k2 = k then some v else lookupField k rest

/-- `escape_sql_string` (line 142): `text.replace("'", "''")` — every
single quote becomes two, scanning left to right. -/
def escape_sql_string : List Char → List Char
  | [] => []
  | c :: rest =>
    if c = '\'' then '\'' :: '\'' :: escape_sql_string rest
    else c :: escape_sql_string rest

/-- Decoder of SQL-escaped literal bodies: succeeds exactly on strings in
which every single quote is part of a doubled pair, and then recovers the
original text.  Used to state that escaped output has no lone quote. -/
def sql_unescape : List Char → Option (List Char)
  | '\'' :: '\'' :: rest => (sql_unescape rest).map (fun t => '\'' :: t)
  | '\'' :: _ => none
  | [] => some []
  | c :: rest => (sql_unescape rest).map (fun t => c :: t)

theorem escape_append (a b : List Char) :
    escape_sql_string (a ++ b) = escape_sql_string a ++ escape_sql_string b := by
  induction a with
  | nil => simp [escape_sql_string]
  | cons c rest ih =>
      by_cases hc : c = '\'' <;> simp [escape_sql_string, hc, ih]

/-- C1: the Escaper doubles every single quote and passes every other
character through unchanged in relative order: its output is the
concatenation, over the input characters in order, of `''` for a quote and
the character itself otherwise; consequently an input with `N` single
quotes yields an output with `2N` single quotes that is character-identical
on the non-quote characters. -/
theorem c1_escape_sql_string_spec (s : List Char) :
    escape_sql_string s
      = (s.map (fun c => if c = '\'' then ['\'', '\''] else [c])).flatten
    ∧ (escape_sql_string s).count '\'' = 2 * s.count '\''
    ∧ (escape_sql_string s).filter (fun c => c ≠ '\'')
        = s.filter (fun c => c ≠ '\'') := by
  refine ⟨?_, ?_, ?_⟩
  · induction s with
    | nil => simp [escape_sql_string]
    | cons c rest ih => by_cases hc : c = '\'' <;> simp [escape_sql_string, hc, ih]
  · induction s with
    | nil => simp [escape_sql_string]
    | cons c rest ih =>
        by_cases hc : c = '\''
        · simp [escape_sql_string, hc, ih, List.count_cons]
          omega
        · simp [escape_sql_string, hc, ih, List.count_cons]
  · induction s with
    | nil => simp [escape_sql_string]
    | cons c rest ih =>
        simp only [ne_eq, decide_not] at ih
        by_cases hc : c = '\'' <;>
          simp [escape_sql_string, hc, ih, List.filter_cons]

/-- Escaped output never contains a lone (unescaped) single quote: the
decoder accepts it and recovers the original string. -/
theorem sql_unescape_escape (s : List Char) :
    sql_unescape (escape_sql_string s) = some s := by
  induction s with
  | nil => rfl
  | cons c rest ih =>
      by_cases hc : c = '\''
      · simp [escape_sql_string, hc, sql_unescape, ih]
      · cases hrest : escape_sql_string rest with
        | nil => simp [escape_sql_string, hc, sql_unescape, hrest] at ih ⊢; simpa [hrest] using ih
        | cons d ds =>
            simp only [escape_sql_string, hc, if_neg hc]
            rw [hrest] at ih ⊢
            cases hd : c with
            | mk v =>
              simp [sql_unescape, ih, ← hd, hc]

/-- Python `\s` as the two regexes in `generate_article_content` meet it
(the responses handled here are ASCII; on ASCII, `\s` is exactly these six
characters). -/
def isPySpace (c : Char) : Bool :=
  c = ' ' || c = '\t' || c = '\x0a' || c = '\x0d' || c = '\x0b' || c = '\x0c'

/-- `re.sub(r'^```json?\s*\n?', '', s)` (line 84): the anchored pattern
requires the three backticks to be followed by the letters `jso` and an
optional `n` (the `?` of the source pattern binds only to `n`), then
greedily drops whitespace; the trailing `\n?` is subsumed by the greedy
`\s*`.  When the pattern does not match, the text is unchanged. -/
def strip1 : List Char → List Char
  | '`' :: '`' :: '`' :: 'j' :: 's' :: 'o' :: 'n' :: rest => rest.dropWhile isPySpace
  | '`' :: '`' :: '`' :: 'j' :: 's' :: 'o' :: rest => rest.dropWhile isPySpace
  | s => s

/-- Whether `\n?```\s*$` matches starting at the head of `s` (the `$` and
the greedy `\s*` make any match run to the end of the string, as the match
must be followed by whitespace only). -/
def matchTail (s : List Char) : Bool :=
  match s with
  | '\x0a' :: '`' :: '`' :: '`' :: rest => rest.all isPySpace
  | '`' :: '`' :: '`' :: rest => rest.all isPySpace
  | _ => false

/-- `re.sub(r'\n?```\s*$', '', s)` (line 85): remove the leftmost match of
the trailing-fence pattern, which necessarily extends to the end. -/
def strip2 : List Char → List Char
  | [] => []
  | c :: rest => if matchTail (c :: rest) then [] else c :: strip2 rest

/-- Lines 83–85: the two regex substitutions are applied only when the
response starts with three backticks. -/
def preprocess (r : List Char) : List Char :=
  if (toL "```").isPrefixOf r then strip2 (strip1 r) else r

/-- Line 90: the six required fields. -/
def required_fields : List (List Char) :=
  [toL "title", toL "content", toL "excerpt", toL "summary",
   toL "summary_title", toL "reading_time"]

/-- Lines 91–93: every required field must be a key of the parsed object. -/
def requiredPresent (d : Obj) : Bool :=
  required_fields.all (fun f => (lookupField f d).isSome)

/-- Python string repetition `s * n`. -/
def repeatList (n : Nat) (s : List Char) : List Char := (List.replicate n s).flatten

/-- Lines 100–107: the fallback article record built from the topic alone. -/
def fallback_content (topic : List Char) : Obj :=
  [ (toL "title", .jstr (toL "Understanding " ++ topic ++ toL ": A Comprehensive Guide")),
    (toL "content", .jstr (toL "<p>This is a comprehensive guide about " ++ topic ++ toL ".</p>")),
    (toL "excerpt", .jstr (toL "Learn about " ++ topic ++ toL " in machine learning.")),
    (toL "summary", .jstr (repeatList 10 (topic ++ toL " is an important concept in machine learning. "))),
    (toL "summary_title", .jstr (topic.take 30)),
    (toL "reading_time", .jnum 10) ]

/-- `generate_article_content` (lines 29–107).  `llm` is the external
collaborator `get_llm_output` (a function of the topic and tags, which
determine the prompt; `.error` = the call raised), `parse` is `json.loads`
restricted to object results (`none` = it raised).  The `try`/`except`
around the body routes the raised `ValueError` for a missing field, a
parse failure and a collaborator failure alike to the fallback record. -/
def generate_article_content
    (llm : List Char → List (List Char) → Except Unit (List Char))
    (parse : List Char → Option Obj)
    (topic : List Char) (tags : List (List Char)) : Obj :=
  match llm topic tags with
  | .error _ => fallback_content topic
  | .ok response_content =>
      match parse (preprocess response_content) with
      | none => fallback_content topic
      | some article_data =>
          if requiredPresent article_data then article_data
          else fallback_content topic

theorem strip1_tagged_fence_sample :
    strip1 (toL "```json\x0a\x7b\x7d\x0a```") = toL "\x7b\x7d\x0a```" := by decide

theorem strip1_bare_fence_sample :
    strip1 (toL "```\x0a\x7b\x7d\x0a```") = toL "```\x0a\x7b\x7d\x0a```" := by decide

theorem strip2_trailing_fence_sample :
    strip2 (toL "\x7b\x7d\x0a```") = toL "\x7b\x7d" := by decide

theorem requiredPresent_fallback (topic : List Char) :
    requiredPresent (fallback_content topic) = true := rfl

theorem gac_fallback_of_fail
    (llm : List Char → List (List Char) → Except Unit (List Char))
    (parse : List Char → Option Obj) (topic : List Char) (tags : List (List Char))
    (hfail : ∀ r, llm topic tags = .ok r →
      ∀ d, parse (preprocess r) = some d → requiredPresent d = false) :
    generate_article_content llm parse topic tags = fallback_content topic := by
  unfold generate_article_content
  cases hllm : llm topic tags with
  | error e => rfl
  | ok r =>
      cases hp : parse (preprocess r) with
      | none => simp [hp]
      | some d => simp [hp, hfail r hllm d hp]

/-- C3: whatever the collaborator and the JSON parse do — the call raises,
the text fails to parse, or the parsed object lacks one of the six required
fields — `generate_article_content` returns a total result (it is a function
into records, never an exception), that result always carries all six
required fields, and in each of the failure cases it is exactly the fallback
record for the topic. -/
theorem c3_content_failure_isolated
    (llm : List Char → List (List Char) → Except Unit (List Char))
    (parse : List Char → Option Obj) (topic : List Char) (tags : List (List Char)) :
    requiredPresent (generate_article_content llm parse topic tags) = true
    ∧ ((∀ r, llm topic tags = .ok r →
          ∀ d, parse (preprocess r) = some d → requiredPresent d = false) →
        generate_article_content llm parse topic tags = fallback_content topic) := by
  constructor
  · unfold generate_article_content
    cases hllm : llm topic tags with
    | error e => exact requiredPresent_fallback topic
    | ok r =>
        cases hp : parse (preprocess r) with
        | none => simp [hp, requiredPresent_fallback]
        | some d =>
            by_cases hreq : requiredPresent d = true
            · simp [hp, hreq]
            · simp [hp, hreq, requiredPresent_fallback]
  · exact gac_fallback_of_fail llm parse topic tags

def llmFail : List Char → List (List Char) → Except Unit (List Char) := fun _ _ => .error ()

def parseNone : List Char → Option Obj := fun _ => none

theorem c3_content_failure_isolated_witness :
    requiredPresent (generate_article_content llmFail parseNone (toL "Gradient Descent") []) = true
    ∧ generate_article_content llmFail parseNone (toL "Gradient Descent") []
        = fallback_content (toL "Gradient Descent") :=
  ⟨(c3_content_failure_isolated llmFail parseNone (toL "Gradient Descent") []).1,
   (c3_content_failure_isolated llmFail parseNone (toL "Gradient Descent") []).2
     (fun r h => by simp [llmFail] at h)⟩

/-- C4: whenever the content request fails in any of its modes, the
resulting record is the deterministic fallback built from the topic string
alone: its `title` is exactly `Understanding {topic}: A Comprehensive
Guide`, its `summary_title` is the first 30 characters of the topic
(`topic[:30]`), and its `reading_time` is 10. -/
theorem c4_fallback_record_fields
    (llm : List Char → List (List Char) → Except Unit (List Char))
    (parse : List Char → Option Obj) (topic : List Char) (tags : List (List Char))
    (hfail : ∀ r, llm topic tags = .ok r →
      ∀ d, parse (preprocess r) = some d → requiredPresent d = false) :
    generate_article_content llm parse topic tags = fallback_content topic
    ∧ lookupField (toL "title") (generate_article_content llm parse topic tags)
        = some (.jstr (toL "Understanding " ++ topic ++ toL ": A Comprehensive Guide"))
    ∧ lookupField (toL "summary_title") (generate_article_content llm parse topic tags)
        = some (.jstr (topic.take 30))
    ∧ lookupField (toL "reading_time") (generate_article_content llm parse topic tags)
        = some (.jnum 10) := by
  have h := gac_fallback_of_fail llm parse topic tags hfail
  rw [h]
  exact ⟨rfl, rfl, rfl, rfl⟩

theorem c4_fallback_record_fields_witness :
    generate_article_content llmFail parseNone (toL "Gradient Descent") []
        = fallback_content (toL "Gradient Descent")
    ∧ lookupField (toL "title") (generate_article_content llmFail parseNone (toL "Gradient Descent") [])
        = some (.jstr (toL "Understanding Gradient Descent: A Comprehensive Guide"))
    ∧ lookupField (toL "summary_title") (generate_article_content llmFail parseNone (toL "Gradient Descent") [])
        = some (.jstr (toL "Gradient Descent"))
    ∧ lookupField (toL "reading_time") (generate_article_content llmFail parseNone (toL "Gradient Descent") [])
        = some (.jnum 10) := by
  have h := c4_fallback_record_fields llmFail parseNone (toL "Gradient Descent") []
    (fun r hr => by simp [llmFail] at hr)
  refine ⟨h.1, ?_, ?_, h.2.2.2⟩
  · rw [h.2.1]; decide
  · rw [h.2.2.1]; decide

/-- C6: when the collaborator answers with text that is a well-formed JSON
object carrying all six required fields (such text does not begin with a
code fence, so no stripping applies), `generate_article_content` returns
exactly the parsed object: no field is dropped, renamed or mutated. -/
theorem c6_round_trip
    (llm : List Char → List (List Char) → Except Unit (List Char))
    (parse : List Char → Option Obj) (topic : List Char) (tags : List (List Char))
    (r : List Char) (d : Obj)
    (hr : llm topic tags = .ok r)
    (hnf : (toL "```").isPrefixOf r = false)
    (hp : parse r = some d)
    (hreq : requiredPresent d = true) :
    generate_article_content llm parse topic tags = d := by
  unfold generate_article_content
  rw [hr]
  simp [preprocess, hnf, hp, hreq]

def sampleObj : Obj :=
  [ (toL "title", .jstr (toL "T")), (toL "content", .jstr (toL "C")),
    (toL "excerpt", .jstr (toL "E")), (toL "summary", .jstr (toL "S")),
    (toL "summary_title", .jstr (toL "ST")), (toL "reading_time", .jnum 5) ]

def parseSample : List Char → Option Obj :=
  fun s => if s = toL "resp" then some sampleObj else none

def llmSample : List Char → List (List Char) → Except Unit (List Char) :=
  fun _ _ => .ok (toL "resp")

theorem c6_round_trip_witness :
    generate_article_content llmSample parseSample (toL "t") [] = sampleObj :=
  c6_round_trip llmSample parseSample (toL "t") [] (toL "resp") sampleObj
    rfl (by decide) (by simp [parseSample]) (by decide)

theorem matchTail_eq_false_of (s : List Char) (h5 : 5 ≤ s.length)
    (hl : s.getLast? = some '`') : matchTail s = false := by
  unfold matchTail
  split
  · rename_i rest
    cases rest with
    | nil => simp at h5
    | cons x xs =>
        simp only [List.getLast?_cons_cons] at hl
        rw [List.all_eq_false]
        exact ⟨'`', List.mem_of_getLast?_eq_some hl, by decide⟩
  · rename_i rest
    cases rest with
    | nil => simp at h5
    | cons x xs =>
        simp only [List.getLast?_cons_cons] at hl
        rw [List.all_eq_false]
        exact ⟨'`', List.mem_of_getLast?_eq_some hl, by decide⟩
  · rfl

theorem strip2_append_fence (body : List Char) :
    strip2 (body ++ toL "\x0a```") = body := by
  induction body with
  | nil => decide
  | cons b bs ih =>
      have hm : matchTail (b :: (bs ++ toL "\x0a```")) = false := by
        apply matchTail_eq_false_of
        · have h4 : (toL "\x0a```").length = 4 := rfl
          simp [List.length_append, h4]
        · rw [show b :: (bs ++ toL "\x0a```") = (b :: bs) ++ toL "\x0a```" from rfl,
              List.getLast?_append_of_ne_nil _ (by decide)]
          decide
      simp only [List.cons_append] at ih ⊢
      rw [strip2, if_neg (by simp [hm]), ih]

theorem strip1_json_wrap (b : Char) (bs tail : List Char) (hws : isPySpace b = false) :
    strip1 (toL "```json\x0a" ++ ((b :: bs) ++ tail)) = (b :: bs) ++ tail := by
  show strip1 ('`' :: '`' :: '`' :: 'j' :: 's' :: 'o' :: 'n' :: '\x0a' :: ((b :: bs) ++ tail))
      = (b :: bs) ++ tail
  have h1 : isPySpace '\x0a' = true := rfl
  rw [strip1, List.dropWhile_cons, h1]
  simp only [List.cons_append, List.dropWhile_cons, hws]
  rfl

theorem preprocess_json_wrap (b : Char) (bs : List Char) (hws : isPySpace b = false) :
    preprocess (toL "```json\x0a" ++ ((b :: bs) ++ toL "\x0a```")) = b :: bs := by
  have hpre : (toL "```").isPrefixOf (toL "```json\x0a" ++ ((b :: bs) ++ toL "\x0a```")) = true := rfl
  rw [preprocess, if_pos hpre, strip1_json_wrap b bs _ hws,
      strip2_append_fence (b :: bs)]

theorem preprocess_no_fence (r : List Char) (hnf : (toL "```").isPrefixOf r = false) :
    preprocess r = r := by
  rw [preprocess, if_neg (by simp [hnf])]

theorem gac_ok
    (llm : List Char → List (List Char) → Except Unit (List Char))
    (parse : List Char → Option Obj) (topic : List Char) (tags : List (List Char))
    (r : List Char) (h : llm topic tags = .ok r) :
    generate_article_content llm parse topic tags
      = match parse (preprocess r) with
        | none => fallback_content topic
        | some article_data =>
            if requiredPresent article_data then article_data
            else fallback_content topic := by
  unfold generate_article_content
  rw [h]

/-- C5 counterexample: for a fence delimiter with no language tag the
opening fence line is NOT stripped — the source pattern `^```json?\s*\n?`
demands the letters `jso` after the backticks — so the preprocessed text
that reaches the JSON parse still begins with the fence and differs from
the unwrapped body, contradicting the claim for the tag-less case it
quantifies over. -/
theorem c5_bare_fence_not_stripped :
    preprocess (toL "```\x0a\x7b\"title\": 1\x7d\x0a```") = toL "```\x0a\x7b\"title\": 1\x7d"
    ∧ toL "```\x0a\x7b\"title\": 1\x7d" ≠ toL "\x7b\"title\": 1\x7d" := by
  constructor
  · decide
  · decide

/-- C5 (amended): the opening fence line is stripped only when the fence
delimiter is followed by the language tag (`json`; per the source pattern
also `jso`).  For every body that is nonempty, does not begin with
whitespace and does not itself begin with a fence, a response wrapped as a
leading ```json line, the body, and a trailing ``` line is preprocessed to
exactly the body, so it parses — and the whole content generation behaves —
identically to the unwrapped body alone.  A bare ``` fence without a
language tag is not stripped. -/
theorem c5_json_fence_strip
    (llm1 llm2 : List Char → List (List Char) → Except Unit (List Char))
    (parse : List Char → Option Obj) (topic : List Char) (tags : List (List Char))
    (b : Char) (bs : List Char)
    (hws : isPySpace b = false)
    (hnf : (toL "```").isPrefixOf (b :: bs) = false)
    (h1 : llm1 topic tags = .ok (toL "```json\x0a" ++ ((b :: bs) ++ toL "\x0a```")))
    (h2 : llm2 topic tags = .ok (b :: bs)) :
    preprocess (toL "```json\x0a" ++ ((b :: bs) ++ toL "\x0a```")) = b :: bs
    ∧ generate_article_content llm1 parse topic tags
        = generate_article_content llm2 parse topic tags := by
  refine ⟨preprocess_json_wrap b bs hws, ?_⟩
  rw [gac_ok llm1 parse topic tags _ h1, gac_ok llm2 parse topic tags _ h2,
      preprocess_json_wrap b bs hws, preprocess_no_fence _ hnf]

def llmWrapped : List Char → List (List Char) → Except Unit (List Char) :=
  fun _ _ => .ok (toL "```json\x0a\x7b\"a\": 1\x7d\x0a```")

def llmPlain : List Char → List (List Char) → Except Unit (List Char) :=
  fun _ _ => .ok (toL "\x7b\"a\": 1\x7d")

theorem c5_json_fence_strip_witness :
    preprocess (toL "```json\x0a" ++ ((toL "\x7b\"a\": 1\x7d") ++ toL "\x0a```"))
        = toL "\x7b\"a\": 1\x7d"
    ∧ generate_article_content llmWrapped parseNone (toL "t") []
        = generate_article_content llmPlain parseNone (toL "t") [] := by
  have h := c5_json_fence_strip llmWrapped llmPlain parseNone (toL "t") []
    '\x7b' (toL "\"a\": 1\x7d") (by decide) (by decide) rfl rfl
  exact h

/-- Lines 121–127: the five fixed Pexels URLs of the Image Pool. -/
def default_images : List (List Char) :=
  [ toL "https://images.pexels.com/photos/8439093/pexels-photo-8439093.jpeg",
    toL "https://images.pexels.com/photos/3861969/pexels-photo-3861969.jpeg",
    toL "https://images.pexels.com/photos/8386434/pexels-photo-8386434.jpeg",
    toL "https://images.pexels.com/photos/8438918/pexels-photo-8438918.jpeg",
    toL "https://images.pexels.com/photos/7516366/pexels-photo-7516366.jpeg" ]

/-- `get_featured_image` (line 130):
`default_images[hash(topic) % len(default_images)]`.  The built-in `hash`
is an unspecified integer-valued function of the string, stable within one
process; it is the parameter `h`.  Python `%` with a positive right operand
is the Euclidean remainder, Lean's `Int.emod`. -/
def get_featured_image (h : List Char → Int) (topic : List Char) : List Char :=
  default_images.getD ((h topic % (default_images.length : Int)).toNat) []

/-- C9: whatever integer the string hash returns — negative included — the
hash-modulo index is in bounds of the five-element pool, the selected URL
is one of the five fixed pool URLs, and two calls with the same hash
function (same process) and the same topic return the same URL. -/
theorem c9_image_selection_total (h : List Char → Int) (topic : List Char) :
    (h topic % (default_images.length : Int)).toNat < default_images.length
    ∧ get_featured_image h topic ∈ default_images
    ∧ get_featured_image h topic = get_featured_image h topic := by
  have hlen : (default_images.length : Int) = 5 := rfl
  have h0 : 0 ≤ h topic % (default_images.length : Int) := by
    rw [hlen]; exact Int.emod_nonneg _ (by norm_num)
  have h1 : h topic % (default_images.length : Int) < 5 := by
    rw [hlen]; exact Int.emod_lt_of_pos _ (by norm_num)
  have hb : (h topic % (default_images.length : Int)).toNat < default_images.length := by
    have : default_images.length = 5 := rfl
    omega
  refine ⟨hb, ?_, rfl⟩
  rw [get_featured_image, List.getD_eq_getElem _ _ hb]
  exact List.getElem_mem hb

/-- Python `str()` of the JSON values the f-string can meet at
`reading_time` (line 193). -/
def pyStrJ : JVal → List Char
  | .jstr s => s
  | .jnum n => toL (toString n)
  | .jbool true => toL "True"
  | .jbool false => toL "False"
  | .jnull => toL "None"

/-- Exceptions of the embedded code itself: `KeyError` from `d[k]`, and the
attribute error raised by calling `.replace` on a non-string value. -/
inductive PyErr where
  | keyError (k : List Char)
  | typeError (k : List Char)
deriving DecidableEq, Repr

/-- `article_data[k]` fed to `escape_sql_string`: `KeyError` when the key
is absent, the `.replace` attribute error when the value is not a string. -/
def getReqStr (d : Obj) (k : List Char) : Except PyErr (List Char) :=
  match lookupField k d with
  | none => .error (.keyError k)
  | some (.jstr s) => .ok s
  | some _ => .error (.typeError k)

/-- `article_data.get(k, '')` fed to `escape_sql_string`. -/
def getOptStr (d : Obj) (k : List Char) : Except PyErr (List Char) :=
  match lookupField k d with
  | none => .ok []
  | some (.jstr s) => .ok s
  | some _ => .error (.typeError k)

/-- Line 183: each tag wrapped in single quotes verbatim, joined by a comma
and a space. -/
def formatTags (tags : List (List Char)) : List Char :=
  List.intercalate (toL ", ") (tags.map (fun tag => toL "'" ++ tag ++ toL "'"))

/-- The f-string of lines 186–198, taking the five already-escaped text
fields, the image URL, the rendered reading time, and the joined tags
fragment. -/
def rowTemplate (title content excerpt summary summary_title featured_image
    reading_time tags_str : List Char) (is_premium : Bool) (views : Int)
    (created_by : List Char) : List Char :=
  toL "  (\x0a    '" ++ title ++ toL "',\x0a    '" ++ content ++ toL "',\x0a    '"
    ++ excerpt ++ toL "',\x0a    '" ++ summary ++ toL "',\x0a    '"
    ++ summary_title ++ toL "',\x0a    '" ++ featured_image ++ toL "',\x0a    "
    ++ reading_time ++ toL ",\x0a    ARRAY[" ++ tags_str ++ toL "],\x0a    "
    ++ (if is_premium then toL "true" else toL "false") ++ toL ",\x0a    "
    ++ toL (toString views) ++ toL ",\x0a    '" ++ created_by ++ toL "'\x0a  )"

/-- Lines 176–198 of `generate_sql_insert`: the record-to-tuple rendering
(the Row Builder), in source evaluation order: title and content are
required lookups, the three other text fields default to the empty string,
all five pass through `escape_sql_string`; `reading_time` defaults to 10
and is rendered unquoted; the boolean is `str(...).lower()`; `views` and
`created_by` are interpolated directly. -/
def buildRow (article_data : Obj) (tags : List (List Char))
    (featured_image : List Char) (is_premium : Bool) (views : Int)
    (created_by : List Char) : Except PyErr (List Char) := do
  let title ← getReqStr article_data (toL "title")
  let content ← getReqStr article_data (toL "content")
  let excerpt ← getOptStr article_data (toL "excerpt")
  let summary ← getOptStr article_data (toL "summary")
  let summary_title ← getOptStr article_data (toL "summary_title")
  let tags_str := formatTags tags
  let reading_time :=
    match lookupField (toL "reading_time") article_data with
    | some v => pyStrJ v
    | none => toL "10"
  pure (rowTemplate (escape_sql_string title) (escape_sql_string content)
    (escape_sql_string excerpt) (escape_sql_string summary)
    (escape_sql_string summary_title) featured_image reading_time tags_str
    is_premium views created_by)

/-- C7: for a record carrying the six fields with text values and a numeric
reading time, the Row Builder emits one parenthesized, comma-separated
tuple with the values in the fixed order title, content, excerpt, summary,
summary_title, featured_image, reading_time, tags, is_premium, views,
created_by; reading_time and views are unquoted numeric literals, tags is
an ARRAY[...] literal of quoted elements, the boolean is bare lowercase
true/false, and the creator identifier is accepted verbatim — any string,
no UUID-shape validation — and single-quoted. -/
theorem c7_row_format (d : Obj) (t c e s st : List Char) (n : Int)
    (tags : List (List Char)) (img : List Char) (prem : Bool) (views : Int)
    (cb : List Char)
    (ht : lookupField (toL "title") d = some (.jstr t))
    (hc : lookupField (toL "content") d = some (.jstr c))
    (he : lookupField (toL "excerpt") d = some (.jstr e))
    (hs : lookupField (toL "summary") d = some (.jstr s))
    (hst : lookupField (toL "summary_title") d = some (.jstr st))
    (hn : lookupField (toL "reading_time") d = some (.jnum n)) :
    buildRow d tags img prem views cb
      = .ok (toL "  (\x0a    '" ++ escape_sql_string t ++ toL "',\x0a    '"
          ++ escape_sql_string c ++ toL "',\x0a    '" ++ escape_sql_string e
          ++ toL "',\x0a    '" ++ escape_sql_string s ++ toL "',\x0a    '"
          ++ escape_sql_string st ++ toL "',\x0a    '" ++ img ++ toL "',\x0a    "
          ++ toL (toString n) ++ toL ",\x0a    ARRAY["
          ++ List.intercalate (toL ", ") (tags.map (fun tag => toL "'" ++ tag ++ toL "'"))
          ++ toL "],\x0a    " ++ (if prem then toL "true" else toL "false")
          ++ toL ",\x0a    " ++ toL (toString views) ++ toL ",\x0a    '"
          ++ cb ++ toL "'\x0a  )") := by
  simp [buildRow, getReqStr, getOptStr, ht, hc, he, hs, hst, hn, formatTags,
    rowTemplate, pyStrJ, Bind.bind, Except.bind, Pure.pure, Except.pure]

theorem c7_row_format_witness :
    buildRow sampleObj [toL "ml"] (toL "img") false 5 (toL "u-1")
      = .ok (toL "  (\x0a    '" ++ escape_sql_string (toL "T") ++ toL "',\x0a    '"
          ++ escape_sql_string (toL "C") ++ toL "',\x0a    '" ++ escape_sql_string (toL "E")
          ++ toL "',\x0a    '" ++ escape_sql_string (toL "S") ++ toL "',\x0a    '"
          ++ escape_sql_string (toL "ST") ++ toL "',\x0a    '" ++ toL "img" ++ toL "',\x0a    "
          ++ toL (toString (5 : Int)) ++ toL ",\x0a    ARRAY["
          ++ List.intercalate (toL ", ") ([toL "ml"].map (fun tag => toL "'" ++ tag ++ toL "'"))
          ++ toL "],\x0a    " ++ (if false then toL "true" else toL "false")
          ++ toL ",\x0a    " ++ toL (toString (5 : Int)) ++ toL ",\x0a    '"
          ++ toL "u-1" ++ toL "'\x0a  )") :=
  c7_row_format sampleObj (toL "T") (toL "C") (toL "E") (toL "S") (toL "ST") 5
    [toL "ml"] (toL "img") false 5 (toL "u-1") rfl rfl rfl rfl rfl rfl

set_option maxRecDepth 8192 in
/-- C8 counterexample: tag elements are interpolated into the ARRAY literal
verbatim, with no quote escaping — the tag `a'b` is rendered as `'a'b'`,
not as the escaped `'a''b'`, and that unescaped fragment reaches the
emitted tuple — so the claim that each tag element of the ARRAY literal has
its internal single quotes escaped is false. -/
theorem c8_tags_not_escaped :
    formatTags [toL "a'b"] = toL "'a'b'"
    ∧ formatTags [toL "a'b"] ≠ toL "'" ++ escape_sql_string (toL "a'b") ++ toL "'"
    ∧ buildRow sampleObj [toL "a'b"] (toL "img") false 0 (toL "u")
        = .ok (toL "  (\x0a    'T',\x0a    'C',\x0a    'E',\x0a    'S',\x0a    'ST',\x0a    'img',\x0a    5,\x0a    ARRAY['a'b'],\x0a    false,\x0a    0,\x0a    'u'\x0a  )")
    ∧ (toL "ARRAY['a'b']")
        <:+: (toL "  (\x0a    'T',\x0a    'C',\x0a    'E',\x0a    'S',\x0a    'ST',\x0a    'img',\x0a    5,\x0a    ARRAY['a'b'],\x0a    false,\x0a    0,\x0a    'u'\x0a  )") := by
  refine ⟨by decide, by decide, rfl, by decide⟩

/-- C8 (amended): the Escaper is applied to title, content, excerpt,
summary and summary_title, so those five quoted literals contain single
quotes only in doubled form (the decoder `sql_unescape` recovers the
originals); the tag elements of the ARRAY literal, however, are quoted
verbatim WITHOUT escaping, so a tag containing a single quote produces an
unescaped quote inside the array literal. -/
theorem c8_field_escaping (d : Obj) (t c e s st : List Char) (n : Int)
    (tags : List (List Char)) (img : List Char) (prem : Bool) (views : Int)
    (cb : List Char)
    (ht : lookupField (toL "title") d = some (.jstr t))
    (hc : lookupField (toL "content") d = some (.jstr c))
    (he : lookupField (toL "excerpt") d = some (.jstr e))
    (hs : lookupField (toL "summary") d = some (.jstr s))
    (hst : lookupField (toL "summary_title") d = some (.jstr st))
    (hn : lookupField (toL "reading_time") d = some (.jnum n)) :
    buildRow d tags img prem views cb
      = .ok (rowTemplate (escape_sql_string t) (escape_sql_string c)
          (escape_sql_string e) (escape_sql_string s) (escape_sql_string st)
          img (toL (toString n)) (formatTags tags) prem views cb)
    ∧ sql_unescape (escape_sql_string t) = some t
    ∧ sql_unescape (escape_sql_string c) = some c
    ∧ sql_unescape (escape_sql_string e) = some e
    ∧ sql_unescape (escape_sql_string s) = some s
    ∧ sql_unescape (escape_sql_string st) = some st
    ∧ formatTags tags
        = List.intercalate (toL ", ") (tags.map (fun tag => toL "'" ++ tag ++ toL "'")) := by
  refine ⟨?_, sql_unescape_escape t, sql_unescape_escape c, sql_unescape_escape e,
    sql_unescape_escape s, sql_unescape_escape st, rfl⟩
  simp [buildRow, getReqStr, getOptStr, ht, hc, he, hs, hst, hn,
    Bind.bind, Except.bind, Pure.pure, Except.pure, pyStrJ]

def quoteObj : Obj :=
  [ (toL "title", .jstr (toL "O'Brien")), (toL "content", .jstr (toL "C")),
    (toL "excerpt", .jstr (toL "E")), (toL "summary", .jstr (toL "S")),
    (toL "summary_title", .jstr (toL "ST")), (toL "reading_time", .jnum 7) ]

theorem c8_field_escaping_witness :
    buildRow quoteObj [toL "ml"] (toL "img") false 0 (toL "u")
      = .ok (rowTemplate (escape_sql_string (toL "O'Brien")) (escape_sql_string (toL "C"))
          (escape_sql_string (toL "E")) (escape_sql_string (toL "S"))
          (escape_sql_string (toL "ST")) (toL "img") (toL (toString (7 : Int)))
          (formatTags [toL "ml"]) false 0 (toL "u"))
    ∧ sql_unescape (escape_sql_string (toL "O'Brien")) = some (toL "O'Brien")
    ∧ sql_unescape (escape_sql_string (toL "C")) = some (toL "C")
    ∧ sql_unescape (escape_sql_string (toL "E")) = some (toL "E")
    ∧ sql_unescape (escape_sql_string (toL "S")) = some (toL "S")
    ∧ sql_unescape (escape_sql_string (toL "ST")) = some (toL "ST")
    ∧ formatTags [toL "ml"]
        = List.intercalate (toL ", ") ([toL "ml"].map (fun tag => toL "'" ++ tag ++ toL "'")) :=
  c8_field_escaping quoteObj (toL "O'Brien") (toL "C") (toL "E") (toL "S") (toL "ST") 7
    [toL "ml"] (toL "img") false 0 (toL "u") rfl rfl rfl rfl rfl rfl

/-- Whether an optional text field is fit for the Row Builder: absent, or
present with a string value. -/
def optStrOk (d : Obj) (k : List Char) : Bool :=
  match lookupField k d with
  | none => true
  | some (.jstr _) => true
  | some _ => false

/-- Whether a required text field is present with a string value. -/
def reqStrOk (d : Obj) (k : List Char) : Bool :=
  match lookupField k d with
  | some (.jstr _) => true
  | _ => false

/-- The record shape on which the Row Builder cannot raise: title and
content present as strings, the three optional text fields absent or
strings. -/
def wellTypedRecord (d : Obj) : Bool :=
  reqStrOk d (toL "title") && reqStrOk d (toL "content")
    && optStrOk d (toL "excerpt") && optStrOk d (toL "summary")
    && optStrOk d (toL "summary_title")

theorem getReqStr_ok (d : Obj) (k : List Char) (h : reqStrOk d k = true) :
    ∃ s, getReqStr d k = .ok s ∧ lookupField k d = some (.jstr s) := by
  unfold reqStrOk at h
  unfold getReqStr
  cases hl : lookupField k d with
  | none => rw [hl] at h; simp at h
  | some v =>
      cases v with
      | jstr s => exact ⟨s, rfl, rfl⟩
      | jnum n => rw [hl] at h; simp at h
      | jbool b => rw [hl] at h; simp at h
      | jnull => rw [hl] at h; simp at h

theorem getOptStr_ok (d : Obj) (k : List Char) (h : optStrOk d k = true) :
    ∃ s, getOptStr d k = .ok s := by
  unfold optStrOk at h
  unfold getOptStr
  cases hl : lookupField k d with
  | none => exact ⟨[], rfl⟩
  | some v =>
      cases v with
      | jstr s => exact ⟨s, rfl⟩
      | jnum n => rw [hl] at h; simp at h
      | jbool b => rw [hl] at h; simp at h
      | jnull => rw [hl] at h; simp at h

theorem buildRow_isOk (d : Obj) (tags : List (List Char)) (img : List Char)
    (prem : Bool) (views : Int) (cb : List Char)
    (h : wellTypedRecord d = true) :
    ∃ r, buildRow d tags img prem views cb = .ok r := by
  unfold wellTypedRecord at h
  simp only [Bool.and_eq_true] at h
  obtain ⟨⟨⟨⟨h1, h2⟩, h3⟩, h4⟩, h5⟩ := h
  obtain ⟨t, ht, _⟩ := getReqStr_ok d (toL "title") h1
  obtain ⟨c, hcc, _⟩ := getReqStr_ok d (toL "content") h2
  obtain ⟨e, hee⟩ := getOptStr_ok d (toL "excerpt") h3
  obtain ⟨s, hss⟩ := getOptStr_ok d (toL "summary") h4
  obtain ⟨st, hstst⟩ := getOptStr_ok d (toL "summary_title") h5
  refine ⟨rowTemplate (escape_sql_string t) (escape_sql_string c)
    (escape_sql_string e) (escape_sql_string s) (escape_sql_string st) img
    (match lookupField (toL "reading_time") d with
      | some v => pyStrJ v
      | none => toL "10")
    (formatTags tags) prem views cb, ?_⟩
  simp [buildRow, ht, hcc, hee, hss, hstst,
    Bind.bind, Except.bind, Pure.pure, Except.pure]

/-- C10 counterexample: a record containing both `title` and `content` on
which the Row Builder nevertheless raises — a non-string `title` value hits
the `.replace` call inside `escape_sql_string` — so neither "for every
record containing title and content, it succeeds" nor "it raises only when
title or content is absent" holds as stated. -/
theorem c10_nonstring_title_raises :
    lookupField (toL "title") [(toL "title", JVal.jnum 1), (toL "content", JVal.jstr (toL "x"))]
      = some (JVal.jnum 1)
    ∧ buildRow [(toL "title", JVal.jnum 1), (toL "content", JVal.jstr (toL "x"))]
        [] (toL "img") false 0 (toL "u")
      = .error (.typeError (toL "title")) := by
  refine ⟨by decide, rfl⟩

/-- C10 (amended): the Row Builder requires only `title` and `content`,
and requires them to be text: for every record whose title and content are
present with string values and whose excerpt, summary and summary_title
are each absent or strings, it succeeds; an absent excerpt, summary or
summary_title is rendered as the empty string and an absent reading_time
as the numeric literal 10; and an absent title raises the title KeyError.
It raises only when title or content is absent or one of the five text
fields holds a non-string value. -/
theorem c10_row_builder_requirements (d : Obj) (tags : List (List Char))
    (img : List Char) (prem : Bool) (views : Int) (cb : List Char) :
    (wellTypedRecord d = true → ∃ r, buildRow d tags img prem views cb = .ok r)
    ∧ (∀ t c, lookupField (toL "title") d = some (.jstr t) →
        lookupField (toL "content") d = some (.jstr c) →
        lookupField (toL "excerpt") d = none →
        lookupField (toL "summary") d = none →
        lookupField (toL "summary_title") d = none →
        lookupField (toL "reading_time") d = none →
        buildRow d tags img prem views cb
          = .ok (rowTemplate (escape_sql_string t) (escape_sql_string c)
              [] [] [] img (toL "10") (formatTags tags) prem views cb))
    ∧ (lookupField (toL "title") d = none →
        buildRow d tags img prem views cb = .error (.keyError (toL "title"))) := by
  refine ⟨buildRow_isOk d tags img prem views cb, ?_, ?_⟩
  · intro t c ht hc he hs hst hn
    simp [buildRow, getReqStr, getOptStr, ht, hc, he, hs, hst, hn,
      Bind.bind, Except.bind, Pure.pure, Except.pure, escape_sql_string]
  · intro ht
    simp [buildRow, getReqStr, ht, Bind.bind, Except.bind]

def titleContentObj : Obj :=
  [ (toL "title", .jstr (toL "T")), (toL "content", .jstr (toL "C")) ]

theorem c10_row_builder_requirements_witness :
    (∃ r, buildRow titleContentObj [] (toL "img") false 0 (toL "u") = .ok r)
    ∧ buildRow titleContentObj [] (toL "img") false 0 (toL "u")
        = .ok (rowTemplate (escape_sql_string (toL "T")) (escape_sql_string (toL "C"))
            [] [] [] (toL "img") (toL "10") (formatTags []) false 0 (toL "u"))
    ∧ buildRow [] [] (toL "img") false 0 (toL "u") = .error (.keyError (toL "title")) :=
  ⟨(c10_row_builder_requirements titleContentObj [] (toL "img") false 0 (toL "u")).1 (by decide),
   (c10_row_builder_requirements titleContentObj [] (toL "img") false 0 (toL "u")).2.1
     (toL "T") (toL "C") rfl rfl rfl rfl rfl rfl,
   (c10_row_builder_requirements [] [] (toL "img") false 0 (toL "u")).2.2 rfl⟩

/-- `generate_sql_insert` (lines 144–202): generate the content (with the
fallback inside), pick the featured image, then render the row. -/
def generate_sql_insert (h : List Char → Int)
    (llm : List Char → List (List Char) → Except Unit (List Char))
    (parse : List Char → Option Obj)
    (topic : List Char) (tags : List (List Char)) (is_premium : Bool)
    (views : Int) (created_by : List Char) : Except PyErr (List Char) :=
  buildRow (generate_article_content llm parse topic tags) tags
    (get_featured_image h topic) is_premium views created_by

/-- One Topic Request as read from the input file: `name` is accessed with
`topic_data['name']` (required), the other three with `.get` defaults.
The values carry the types §3 of the specification assigns them. -/
structure TopicData where
  name : Option (List Char)
  tags : Option (List (List Char))
  is_premium : Option Bool
  views : Option Int

/-- The sequential per-topic loop of `generate_batch_sql` (lines 225–236):
results are collected in order and the first exception aborts the batch. -/
def mapExcept (f : α → Except ε β) : List α → Except ε (List β)
  | [] => .ok []
  | a :: as => do
      let b ← f a
      let bs ← mapExcept f as
      pure (b :: bs)

/-- Lines 221–223: the fixed statement header. -/
def sql_header : List Char :=
  toL "INSERT INTO articles (title, content, excerpt, summary, summary_title, featured_image, reading_time, tags, is_premium, views, created_by)\x0aVALUES\x0a"

/-- The per-topic body of the loop (lines 229–235): `topic_data['name']`
raises `KeyError` when absent; `tags`, `is_premium` and `views` default. -/
def processTopic (h : List Char → Int)
    (llm : List Char → List (List Char) → Except Unit (List Char))
    (parse : List Char → Option Obj) (created_by : List Char)
    (topic_data : TopicData) : Except PyErr (List Char) :=
  match topic_data.name with
  | none => .error (.keyError (toL "name"))
  | some nm =>
      generate_sql_insert h llm parse nm (topic_data.tags.getD [])
        (topic_data.is_premium.getD false) (topic_data.views.getD 0) created_by

/-- `generate_batch_sql` (lines 204–246): run the loop, join the rows with
a comma and a newline, wrap with the header and a trailing semicolon. -/
def generate_batch_sql (h : List Char → Int)
    (llm : List Char → List (List Char) → Except Unit (List Char))
    (parse : List Char → Option Obj)
    (topics : List TopicData) (created_by : List Char) : Except PyErr (List Char) := do
  let inserts ← mapExcept (processTopic h llm parse created_by) topics
  pure (sql_header ++ List.intercalate (toL ",\x0a") inserts ++ toL ";")

theorem mapExcept_ok (f : α → Except ε β) (l : List α)
    (hf : ∀ a ∈ l, ∃ b, f a = .ok b) :
    ∃ bs, bs.length = l.length ∧ mapExcept f l = .ok bs
      ∧ ∀ i (hi : i < l.length) (hi2 : i < bs.length),
          Except.ok (bs.get ⟨i, hi2⟩) = f (l.get ⟨i, hi⟩) := by
  induction l with
  | nil =>
      exact ⟨[], rfl, rfl, fun i hi => by simp at hi⟩
  | cons a as ih =>
      obtain ⟨b, hb⟩ := hf a (List.mem_cons_self a as)
      obtain ⟨bs, hlen, hmap, hpt⟩ := ih (fun x hx => hf x (List.mem_cons_of_mem a hx))
      refine ⟨b :: bs, by simp [hlen], ?_, ?_⟩
      · simp [mapExcept, hb, hmap, Bind.bind, Except.bind, Pure.pure, Except.pure]
      · intro i hi hi2
        cases i with
        | zero => simpa using hb.symm
        | succ j =>
            simp only [List.get_cons_succ]
            exact hpt j (by simpa using hi) (by simpa using hi2)

/-- C2: for every topic sequence in which each request has a `name` and
every record the content generation can produce is well-typed for the Row
Builder (the fallback record always is, so per-topic generation failures
are covered), the batch produces one statement: the fixed eleven-column
header, then exactly one value tuple per input topic — as many tuples as
topics, never fewer — joined by the two-character separator comma-newline,
in input order (tuple `i` is the row generated for topic `i`), terminated
by a trailing semicolon. -/
theorem c2_batch_statement_shape (h : List Char → Int)
    (llm : List Char → List (List Char) → Except Unit (List Char))
    (parse : List Char → Option Obj)
    (topics : List TopicData) (created_by : List Char)
    (hname : ∀ td ∈ topics, td.name.isSome = true)
    (hrec : ∀ topic tags, wellTypedRecord (generate_article_content llm parse topic tags) = true) :
    ∃ rows : List (List Char),
      rows.length = topics.length
      ∧ generate_batch_sql h llm parse topics created_by
          = .ok (sql_header ++ List.intercalate (toL ",\x0a") rows ++ toL ";")
      ∧ ∀ i (hi : i < topics.length) (hi2 : i < rows.length),
          Except.ok (rows.get ⟨i, hi2⟩)
            = processTopic h llm parse created_by (topics.get ⟨i, hi⟩) := by
  have hf : ∀ td ∈ topics, ∃ r, processTopic h llm parse created_by td = .ok r := by
    intro td htd
    have hn := hname td htd
    cases hnm : td.name with
    | none => rw [hnm] at hn; simp at hn
    | some nm =>
        obtain ⟨r, hr⟩ := buildRow_isOk (generate_article_content llm parse nm (td.tags.getD []))
          (td.tags.getD []) (get_featured_image h nm) (td.is_premium.getD false)
          (td.views.getD 0) created_by (hrec nm (td.tags.getD []))
        exact ⟨r, by simp [processTopic, hnm, generate_sql_insert, hr]⟩
  obtain ⟨rows, hlen, hmap, hpt⟩ := mapExcept_ok (processTopic h llm parse created_by) topics hf
  refine ⟨rows, hlen, ?_, hpt⟩
  simp [generate_batch_sql, hmap, Bind.bind, Except.bind, Pure.pure, Except.pure]

def hashZero : List Char → Int := fun _ => 0

def sampleTopic : TopicData :=
  ⟨some (toL "Gradient Descent"), some [toL "optimization", toL "ml"], none, some 5⟩

theorem c2_batch_statement_shape_witness :
    ∃ rows : List (List Char),
      rows.length = [sampleTopic].length
      ∧ generate_batch_sql hashZero llmFail parseNone [sampleTopic] (toL "u-1")
          = .ok (sql_header ++ List.intercalate (toL ",\x0a") rows ++ toL ";")
      ∧ ∀ i (hi : i < [sampleTopic].length) (hi2 : i < rows.length),
          Except.ok (rows.get ⟨i, hi2⟩)
            = processTopic hashZero llmFail parseNone (toL "u-1") ([sampleTopic].get ⟨i, hi⟩) :=
  c2_batch_statement_shape hashZero llmFail parseNone [sampleTopic] (toL "u-1")
    (fun td htd => by
      have : td = sampleTopic := by simpa using htd
      rw [this]; rfl)
    (fun topic tags => rfl)

end ArticleGen
